import Mathlib

/-!
Verification of `api_utils/mongo_utils/infinite_scroll.py`, the cursor-based
pagination (infinite scroll) query engine.  The function
`execute_infinite_scroll_query` is embedded shallowly: the MongoDB collection
becomes a function from a find/sort/limit query to a list of documents, the
`HTTPBadRequest` exception becomes `Except.error` carrying the message, and the
embedding additionally records every query issued to the store so that
"exactly one read query" and "no query on validation failure" are provable.
-/

/-- A BSON ObjectId value, represented by its string form (`str(oid)` in
Python yields exactly this string). -/
structure ObjectId where
  hex : String
deriving DecidableEq, Repr

/-- Acceptance condition of the bson `ObjectId` constructor on a string
argument: exactly 24 hexadecimal characters; anything else raises
`InvalidId`. -/
def isValidObjectIdString (s : String) : Bool :=
  s.length == 24 &&
    s.toList.all fun c =>
      ((Char.ofNat 48 ≤ c && c ≤ Char.ofNat 57) ||
       (Char.ofNat 97 ≤ c && c ≤ Char.ofNat 102) ||
       (Char.ofNat 65 ≤ c && c ≤ Char.ofNat 70))

/-- A stored document: its `_id` plus an opaque remaining payload. -/
structure Document where
  oid : ObjectId
  payload : List (String × String)
deriving DecidableEq, Repr

/-- The `_id` range constraint placed in the filter for cursor paging:
`{"$gt": oid}` or `{"$lt": oid}`. -/
inductive IdConstraint where
  | gt (x : ObjectId)
  | lt (x : ObjectId)
deriving DecidableEq, Repr

/-- The filter document built by the engine (lines 71-77): an optional
case-insensitive regex constraint on `name`, and an optional range
constraint on `_id`. -/
structure FilterQuery where
  nameRegex : Option String
  idConstraint : Option IdConstraint
deriving DecidableEq, Repr

/-- One `find(filter).sort(spec).limit(n)` read query issued to the store. -/
structure QueryCall where
  filter : FilterQuery
  sortSpec : List (String × Int)
  limitN : Int
deriving DecidableEq, Repr

/-- The document store: answers a find/sort/limit query with the list of
documents it yields.  A fixed `Store` value models an unchanged store. -/
abbrev Store := FilterQuery → List (String × Int) → Int → List Document

/-- The page result dictionary `{items, limit, has_more, next_cursor}`. -/
structure PageResult where
  items : List Document
  limit : Int
  has_more : Bool
  next_cursor : Option String
deriving DecidableEq, Repr

/-- Line 54: `allowed_sort_fields = allowed_sort_fields or ["name", "description"]`.
Python `or` replaces both `None` and the (falsy) empty list by the default. -/
def resolveAllowedSortFields : Option (List String) → List String
  | none => ["name", "description"]
  | some l => if l.isEmpty then ["name", "description"] else l

/-- Lines 71-77: build the filter document.  A non-empty `name` adds the
case-insensitive regex constraint; a (validated) `after_id` adds
`{"$gt": ObjectId(after_id)}` for ascending order, `{"$lt": ...}` for
descending. -/
def buildFilterQuery (name : Option String) (after_id : Option String)
    (order : String) : FilterQuery :=
  { nameRegex :=
      match name with
      | some s => if s = "" then none else some s
      | none => none
    idConstraint :=
      match after_id with
      | some a =>
          some (if order = "asc" then IdConstraint.gt ⟨a⟩ else IdConstraint.lt ⟨a⟩)
      | none => none }

/-- `execute_infinite_scroll_query` (lines 17-97).  First component: the
returned page, or the `HTTPBadRequest` message.  Second component: the list
of queries issued to the collection, in order. -/
def execute_infinite_scroll_query (collection : Store)
    (name : Option String) (after_id : Option String) (limit : Int)
    (sort_by : String) (order : String)
    (allowed_sort_fields : Option (List String)) :
    Except String PageResult × List QueryCall :=
  let allowed := resolveAllowedSortFields allowed_sort_fields
  if limit < 1 then
    (Except.error "limit must be >= 1", [])
  else if limit > 100 then
    (Except.error "limit must be <= 100", [])
  else if sort_by ∉ allowed then
    (Except.error ("sort_by must be one of: " ++ String.intercalate ", " allowed), [])
  else if order ≠ "asc" ∧ order ≠ "desc" then
    (Except.error "order must be \x27asc\x27 or \x27desc\x27", [])
  else if (match after_id with
           | some a => !(isValidObjectIdString a)
           | none => false) then
    (Except.error "after_id must be a valid MongoDB ObjectId", [])
  else
    let filter_query := buildFilterQuery name after_id order
    let sort_direction : Int := if order = "asc" then 1 else -1
    let sort_spec := [(sort_by, sort_direction)]
    let items := collection filter_query sort_spec (limit + 1)
    if (items.length : Int) > limit then
      (Except.ok
        { items := items.take limit.toNat
          limit := limit
          has_more := true
          next_cursor := (items.take limit.toNat).getLast?.map fun d => d.oid.hex },
       [⟨filter_query, sort_spec, limit + 1⟩])
    else
      (Except.ok { items := items, limit := limit, has_more := false, next_cursor := none },
       [⟨filter_query, sort_spec, limit + 1⟩])

/-- The single sort key of line 80: `(sort_by, 1 if order == "asc" else -1)`. -/
def sortSpecOf (sort_by order : String) : List (String × Int) :=
  [(sort_by, if order = "asc" then 1 else -1)]

/-- The one query issued at line 82: constructed filter, single sort key,
limited to `limit + 1`. -/
def issuedQuery (name after_id : Option String) (limit : Int)
    (sort_by order : String) : QueryCall :=
  ⟨buildFilterQuery name after_id order, sortSpecOf sort_by order, limit + 1⟩

/-- The store reply to the single query of line 82. -/
def storeReply (collection : Store) (name after_id : Option String)
    (limit : Int) (sort_by order : String) : List Document :=
  collection (buildFilterQuery name after_id order) (sortSpecOf sort_by order) (limit + 1)

/-- A concrete document used by the witnesses. -/
def sampleDoc (n : Nat) : Document :=
  ⟨⟨"id" ++ toString n⟩, [("name", "item" ++ toString n)]⟩

/-- A concrete store holding eleven documents and honouring the query
limit, as in the scenario of the specification. -/
def sampleStore : Store :=
  fun _ _ n => ((List.range 11).map sampleDoc).take n.toNat

/-- A syntactically valid 24-character hexadecimal ObjectId string. -/
def validOid : String := "0123456789abcdef01234567"

/-- The page produced by `sampleStore` for the first page of size ten. -/
def samplePage : PageResult :=
  { items := (List.range 10).map sampleDoc
    limit := 10
    has_more := true
    next_cursor := some "id9" }

/-- On fully valid input the function reduces to the single-query success
expression.  Shared characterisation used by several theorems below. -/
theorem execute_valid_eq (collection : Store) (name after_id : Option String)
    (limit : Int) (sort_by order : String) (asf : Option (List String))
    (h1 : 1 ≤ limit) (h2 : limit ≤ 100)
    (h3 : sort_by ∈ resolveAllowedSortFields asf)
    (h4 : order = "asc" ∨ order = "desc")
    (h5 : ∀ a, after_id = some a → isValidObjectIdString a = true) :
    execute_infinite_scroll_query collection name after_id limit sort_by order asf =
      (if ((storeReply collection name after_id limit sort_by order).length : Int) > limit then
         (Except.ok
           { items := (storeReply collection name after_id limit sort_by order).take limit.toNat
             limit := limit
             has_more := true
             next_cursor :=
               ((storeReply collection name after_id limit sort_by order).take
                 limit.toNat).getLast?.map fun d => d.oid.hex },
          [issuedQuery name after_id limit sort_by order])
       else
         (Except.ok
           { items := storeReply collection name after_id limit sort_by order
             limit := limit
             has_more := false
             next_cursor := none },
          [issuedQuery name after_id limit sort_by order])) := by
  rcases after_id with _ | a
  · unfold execute_infinite_scroll_query
    rw [if_neg (by omega), if_neg (by omega), if_neg (by simpa using h3),
      if_neg (by rcases h4 with h | h <;> simp [h]), if_neg (by simp)]
    rfl
  · unfold execute_infinite_scroll_query
    rw [if_neg (by omega), if_neg (by omega), if_neg (by simpa using h3),
      if_neg (by rcases h4 with h | h <;> simp [h]), if_neg (by simp [h5 a rfl])]
    rfl

/-- C1: on a valid page request the engine issues exactly one store query —
find with the constructed filter, single-key sort `(sort_by, 1 if asc else
-1)`, limited to `limit + 1` — and if the store returns more than `limit`
documents the page items are exactly the first `limit` documents in store
order with `has_more = true`, otherwise all returned documents unchanged
with `has_more = false`. -/
theorem infinite_scroll_single_query_overfetch (collection : Store)
    (name after_id : Option String) (limit : Int) (sort_by order : String)
    (asf : Option (List String))
    (h1 : 1 ≤ limit) (h2 : limit ≤ 100)
    (h3 : sort_by ∈ resolveAllowedSortFields asf)
    (h4 : order = "asc" ∨ order = "desc")
    (h5 : ∀ a, after_id = some a → isValidObjectIdString a = true) :
    (execute_infinite_scroll_query collection name after_id limit sort_by order asf).2 =
      [issuedQuery name after_id limit sort_by order] ∧
    ∃ p, (execute_infinite_scroll_query collection name after_id limit sort_by order asf).1 =
        Except.ok p ∧
      (((storeReply collection name after_id limit sort_by order).length : Int) > limit →
        p.items = (storeReply collection name after_id limit sort_by order).take limit.toNat ∧
        p.has_more = true) ∧
      (¬ ((storeReply collection name after_id limit sort_by order).length : Int) > limit →
        p.items = storeReply collection name after_id limit sort_by order ∧
        p.has_more = false) := by
  rw [execute_valid_eq collection name after_id limit sort_by order asf h1 h2 h3 h4 h5]
  by_cases hlen : ((storeReply collection name after_id limit sort_by order).length : Int) > limit
  · rw [if_pos hlen]
    exact ⟨rfl, _, rfl, fun _ => ⟨rfl, rfl⟩, fun h => absurd hlen h⟩
  · rw [if_neg hlen]
    exact ⟨rfl, _, rfl, fun h => absurd h hlen, fun _ => ⟨rfl, rfl⟩⟩

theorem infinite_scroll_single_query_overfetch_witness :
    (execute_infinite_scroll_query sampleStore none none 10 "name" "asc" none).2 =
      [issuedQuery none none 10 "name" "asc"] :=
  (infinite_scroll_single_query_overfetch sampleStore none none 10 "name" "asc" none
    (by decide) (by decide) (by decide) (Or.inl rfl) (fun a h => nomatch h)).1

/-- C4: on a valid request the filter of the one issued query carries the
`_id` range constraint `$gt ObjectId(after_id)` for ascending order and
`$lt ObjectId(after_id)` for descending order when `after_id` is supplied,
and no `_id` constraint when it is absent. -/
theorem infinite_scroll_cursor_filter (collection : Store)
    (name after_id : Option String) (limit : Int) (sort_by order : String)
    (asf : Option (List String))
    (h1 : 1 ≤ limit) (h2 : limit ≤ 100)
    (h3 : sort_by ∈ resolveAllowedSortFields asf)
    (h4 : order = "asc" ∨ order = "desc")
    (h5 : ∀ a, after_id = some a → isValidObjectIdString a = true) :
    ∃ q, (execute_infinite_scroll_query collection name after_id limit sort_by order asf).2 =
        [q] ∧
      q.filter.idConstraint =
        (after_id.map fun a =>
          if order = "asc" then IdConstraint.gt ⟨a⟩ else IdConstraint.lt ⟨a⟩) := by
  refine ⟨issuedQuery name after_id limit sort_by order,
    (infinite_scroll_single_query_overfetch collection name after_id limit sort_by order asf
      h1 h2 h3 h4 h5).1, ?_⟩
  cases after_id <;> simp [issuedQuery, buildFilterQuery]

theorem infinite_scroll_cursor_filter_witness :
    ∃ q, (execute_infinite_scroll_query sampleStore none (some validOid) 10 "name" "desc"
        none).2 = [q] ∧
      q.filter.idConstraint =
        ((some validOid).map fun a =>
          if "desc" = "asc" then IdConstraint.gt ⟨a⟩ else IdConstraint.lt ⟨a⟩) :=
  infinite_scroll_cursor_filter sampleStore none (some validOid) 10 "name" "desc" none
    (by decide) (by decide) (by decide) (Or.inr rfl)
    (fun a h => by cases h; decide)

/-- C9: the engine is deterministic and side-effect-free — two calls with
identical parameters against the same unchanged store produce identical
results (including the identical single read query issued). -/
theorem infinite_scroll_deterministic (c1 c2 : Store) (n1 n2 a1 a2 : Option String)
    (l1 l2 : Int) (s1 s2 o1 o2 : String) (f1 f2 : Option (List String))
    (hc : c1 = c2) (hn : n1 = n2) (ha : a1 = a2) (hl : l1 = l2) (hs : s1 = s2)
    (ho : o1 = o2) (hf : f1 = f2) :
    execute_infinite_scroll_query c1 n1 a1 l1 s1 o1 f1 =
      execute_infinite_scroll_query c2 n2 a2 l2 s2 o2 f2 := by
  subst hc hn ha hl hs ho hf
  rfl

theorem infinite_scroll_deterministic_witness :
    execute_infinite_scroll_query sampleStore none none 10 "name" "asc" none =
      execute_infinite_scroll_query sampleStore none none 10 "name" "asc" none :=
  infinite_scroll_deterministic sampleStore sampleStore none none none none 10 10
    "name" "name" "asc" "asc" none none rfl rfl rfl rfl rfl rfl rfl

/-- C10: supplying an empty `allowed_sort_fields` list behaves exactly as
supplying none — Python `or` treats the empty list as falsy, so the default
`["name", "description"]` is used and the whole call is unchanged. -/
theorem infinite_scroll_empty_allowlist_defaults (collection : Store)
    (name after_id : Option String) (limit : Int) (sort_by order : String) :
    execute_infinite_scroll_query collection name after_id limit sort_by order (some []) =
      execute_infinite_scroll_query collection name after_id limit sort_by order none := rfl

/-- Inversion: a successful call certifies that every validated parameter
was valid, and the page is one of the two over-fetch outcomes. -/
theorem execute_ok_inversion (collection : Store) (name after_id : Option String)
    (limit : Int) (sort_by order : String) (asf : Option (List String)) (p : PageResult)
    (hp : (execute_infinite_scroll_query collection name after_id limit sort_by order asf).1 =
      Except.ok p) :
    1 ≤ limit ∧ limit ≤ 100 ∧ sort_by ∈ resolveAllowedSortFields asf ∧
      (order = "asc" ∨ order = "desc") ∧
      (∀ a, after_id = some a → isValidObjectIdString a = true) ∧
      (((storeReply collection name after_id limit sort_by order).length : Int) > limit ∧
          p = { items := (storeReply collection name after_id limit sort_by order).take
                  limit.toNat
                limit := limit
                has_more := true
                next_cursor := ((storeReply collection name after_id limit sort_by order).take
                  limit.toNat).getLast?.map fun d => d.oid.hex } ∨
        ¬ ((storeReply collection name after_id limit sort_by order).length : Int) > limit ∧
          p = { items := storeReply collection name after_id limit sort_by order
                limit := limit
                has_more := false
                next_cursor := none }) := by
  have hA : ¬ limit < 1 := by
    intro h
    unfold execute_infinite_scroll_query at hp
    rw [if_pos h] at hp
    exact Except.noConfusion hp
  have hB : ¬ limit > 100 := by
    intro h
    unfold execute_infinite_scroll_query at hp
    rw [if_neg hA, if_pos h] at hp
    exact Except.noConfusion hp
  have hC : sort_by ∈ resolveAllowedSortFields asf := by
    by_contra h
    unfold execute_infinite_scroll_query at hp
    rw [if_neg hA, if_neg hB, if_pos (by simpa using h)] at hp
    exact Except.noConfusion hp
  have hD : order = "asc" ∨ order = "desc" := by
    by_contra h
    push_neg at h
    unfold execute_infinite_scroll_query at hp
    rw [if_neg hA, if_neg hB, if_neg (by simpa using hC), if_pos h] at hp
    exact Except.noConfusion hp
  have hE : ∀ a, after_id = some a → isValidObjectIdString a = true := by
    intro a ha
    by_contra hv
    rw [Bool.not_eq_true] at hv
    subst ha
    unfold execute_infinite_scroll_query at hp
    rw [if_neg hA, if_neg hB, if_neg (by simpa using hC),
      if_neg (by rcases hD with h | h <;> simp [h]), if_pos (by simp [hv])] at hp
    exact Except.noConfusion hp
  refine ⟨by omega, by omega, hC, hD, hE, ?_⟩
  rw [execute_valid_eq collection name after_id limit sort_by order asf (by omega) (by omega)
    hC hD hE] at hp
  by_cases hlen : ((storeReply collection name after_id limit sort_by order).length : Int) > limit
  · rw [if_pos hlen] at hp
    exact Or.inl ⟨hlen, (Except.ok.inj hp).symm⟩
  · rw [if_neg hlen] at hp
    exact Or.inr ⟨hlen, (Except.ok.inj hp).symm⟩

/-- On fully valid input the call succeeds. -/
theorem execute_valid_ok (collection : Store) (name after_id : Option String)
    (limit : Int) (sort_by order : String) (asf : Option (List String))
    (h1 : 1 ≤ limit) (h2 : limit ≤ 100)
    (h3 : sort_by ∈ resolveAllowedSortFields asf)
    (h4 : order = "asc" ∨ order = "desc")
    (h5 : ∀ a, after_id = some a → isValidObjectIdString a = true) :
    ∃ p, (execute_infinite_scroll_query collection name after_id limit sort_by order asf).1 =
      Except.ok p := by
  rw [execute_valid_eq collection name after_id limit sort_by order asf h1 h2 h3 h4 h5]
  by_cases hlen : ((storeReply collection name after_id limit sort_by order).length : Int) > limit
  · exact ⟨_, by rw [if_pos hlen]⟩
  · exact ⟨_, by rw [if_neg hlen]⟩

/-- Every call either succeeds or issues no store query at all. -/
theorem execute_ok_or_log_nil (collection : Store) (name after_id : Option String)
    (limit : Int) (sort_by order : String) (asf : Option (List String)) :
    (∃ p, (execute_infinite_scroll_query collection name after_id limit sort_by order asf).1 =
      Except.ok p) ∨
    (execute_infinite_scroll_query collection name after_id limit sort_by order asf).2 = [] := by
  by_cases hA : limit < 1
  · right
    unfold execute_infinite_scroll_query
    rw [if_pos hA]
  by_cases hB : limit > 100
  · right
    unfold execute_infinite_scroll_query
    rw [if_neg hA, if_pos hB]
  by_cases hC : sort_by ∈ resolveAllowedSortFields asf
  case neg =>
    right
    unfold execute_infinite_scroll_query
    rw [if_neg hA, if_neg hB, if_pos (by simpa using hC)]
  by_cases hD : order = "asc" ∨ order = "desc"
  case neg =>
    right
    push_neg at hD
    unfold execute_infinite_scroll_query
    rw [if_neg hA, if_neg hB, if_neg (by simpa using hC), if_pos hD]
  by_cases hE : ∀ a, after_id = some a → isValidObjectIdString a = true
  · exact Or.inl (execute_valid_ok collection name after_id limit sort_by order asf (by omega)
      (by omega) hC hD hE)
  · right
    push_neg at hE
    obtain ⟨a, ha, hv0⟩ := hE
    have hv : isValidObjectIdString a = false := by simpa using hv0
    subst ha
    unfold execute_infinite_scroll_query
    rw [if_neg hA, if_neg hB, if_neg (by simpa using hC),
      if_neg (by rcases hD with h | h <;> simp [h]), if_pos (by simp [hv])]

/-- A failing call leaves the query log empty. -/
theorem execute_error_log_nil (collection : Store) (name after_id : Option String)
    (limit : Int) (sort_by order : String) (asf : Option (List String)) (e : String)
    (he : (execute_infinite_scroll_query collection name after_id limit sort_by order asf).1 =
      Except.error e) :
    (execute_infinite_scroll_query collection name after_id limit sort_by order asf).2 = [] := by
  rcases execute_ok_or_log_nil collection name after_id limit sort_by order asf with ⟨p, hp⟩ | h
  · exact Except.noConfusion (hp.symm.trans he)
  · exact h

/-- C2: on every successful call, `next_cursor` is non-None exactly when
`has_more` is true, and a non-None `next_cursor` equals the string form of
the `_id` of the last document of `items`. -/
theorem infinite_scroll_next_cursor_iff (collection : Store) (name after_id : Option String)
    (limit : Int) (sort_by order : String) (asf : Option (List String)) (p : PageResult)
    (hp : (execute_infinite_scroll_query collection name after_id limit sort_by order asf).1 =
      Except.ok p) :
    (p.next_cursor.isSome = true ↔ p.has_more = true) ∧
    (∀ s, p.next_cursor = some s →
      ∃ d, p.items.getLast? = some d ∧ s = d.oid.hex) := by
  obtain ⟨h1, -, -, -, -, hcase⟩ :=
    execute_ok_inversion collection name after_id limit sort_by order asf p hp
  rcases hcase with ⟨hlen, rfl⟩ | ⟨hlen, rfl⟩
  · have hne : (storeReply collection name after_id limit sort_by order).take limit.toNat ≠ [] := by
      apply List.ne_nil_of_length_pos
      rw [List.length_take]
      omega
    obtain ⟨d, hd⟩ := Option.isSome_iff_exists.mp (List.getLast?_isSome.mpr hne)
    constructor
    · simp [hd]
    · intro s hs
      refine ⟨d, hd, ?_⟩
      simp only [hd] at hs
      simpa using hs.symm
  · constructor
    · simp
    · intro s hs
      cases hs

theorem infinite_scroll_next_cursor_iff_witness :
    (samplePage.next_cursor.isSome = true ↔ samplePage.has_more = true) ∧
    (∀ s, samplePage.next_cursor = some s →
      ∃ d, samplePage.items.getLast? = some d ∧ s = d.oid.hex) :=
  infinite_scroll_next_cursor_iff sampleStore none none 10 "name" "asc" none samplePage rfl

/-- C3: a `sort_by` outside the allow-list fails with Bad Request whose
message lists the allowed fields, a `sort_by` inside it succeeds when the
other parameters are valid, and an absent allow-list defaults to the
two-field list `["name", "description"]`. -/
theorem infinite_scroll_sort_allowlist (collection : Store) (name after_id : Option String)
    (limit : Int) (sort_by order : String) (asf : Option (List String))
    (h1 : 1 ≤ limit) (h2 : limit ≤ 100)
    (h4 : order = "asc" ∨ order = "desc")
    (h5 : ∀ a, after_id = some a → isValidObjectIdString a = true) :
    (sort_by ∉ resolveAllowedSortFields asf →
      (execute_infinite_scroll_query collection name after_id limit sort_by order asf).1 =
        Except.error ("sort_by must be one of: " ++
          String.intercalate ", " (resolveAllowedSortFields asf))) ∧
    (sort_by ∈ resolveAllowedSortFields asf →
      ∃ p, (execute_infinite_scroll_query collection name after_id limit sort_by order asf).1 =
        Except.ok p) ∧
    resolveAllowedSortFields none = ["name", "description"] := by
  refine ⟨?_, ?_, rfl⟩
  · intro h
    unfold execute_infinite_scroll_query
    rw [if_neg (by omega), if_neg (by omega), if_pos (by simpa using h)]
  · intro h
    exact execute_valid_ok collection name after_id limit sort_by order asf h1 h2 h h4 h5

theorem infinite_scroll_sort_allowlist_witness :
    ("bogus" ∉ resolveAllowedSortFields (some ["name", "description"]) →
      (execute_infinite_scroll_query sampleStore none none 10 "bogus" "asc"
          (some ["name", "description"])).1 =
        Except.error ("sort_by must be one of: " ++
          String.intercalate ", " (resolveAllowedSortFields (some ["name", "description"])))) ∧
    ("bogus" ∈ resolveAllowedSortFields (some ["name", "description"]) →
      ∃ p, (execute_infinite_scroll_query sampleStore none none 10 "bogus" "asc"
          (some ["name", "description"])).1 = Except.ok p) ∧
    resolveAllowedSortFields none = ["name", "description"] :=
  infinite_scroll_sort_allowlist sampleStore none none 10 "bogus" "asc"
    (some ["name", "description"]) (by decide) (by decide) (Or.inl rfl)
    (fun a h => nomatch h)

/-- C5: every successful call with `limit` in `[1, 100]` returns at most
`limit` items, whatever the store replied. -/
theorem infinite_scroll_items_le_limit (collection : Store) (name after_id : Option String)
    (limit : Int) (sort_by order : String) (asf : Option (List String)) (p : PageResult)
    (h1 : 1 ≤ limit) (h2 : limit ≤ 100)
    (hp : (execute_infinite_scroll_query collection name after_id limit sort_by order asf).1 =
      Except.ok p) :
    (p.items.length : Int) ≤ limit := by
  obtain ⟨-, -, -, -, -, hcase⟩ :=
    execute_ok_inversion collection name after_id limit sort_by order asf p hp
  rcases hcase with ⟨hlen, rfl⟩ | ⟨hlen, rfl⟩
  · simp only [List.length_take]
    omega
  · simp only []
    omega

theorem infinite_scroll_items_le_limit_witness :
    ((samplePage.items.length : Int) ≤ 10) :=
  infinite_scroll_items_le_limit sampleStore none none 10 "name" "asc" none samplePage
    (by decide) (by decide) rfl

/-- C6: with the other parameters valid, the call fails exactly when the
limit lies outside `[1, 100]`, and a limit below one yields the message
`limit must be >= 1`. -/
theorem infinite_scroll_limit_bounds (collection : Store) (name after_id : Option String)
    (limit : Int) (sort_by order : String) (asf : Option (List String))
    (h3 : sort_by ∈ resolveAllowedSortFields asf)
    (h4 : order = "asc" ∨ order = "desc")
    (h5 : ∀ a, after_id = some a → isValidObjectIdString a = true) :
    ((∃ e, (execute_infinite_scroll_query collection name after_id limit sort_by order asf).1 =
        Except.error e) ↔ limit < 1 ∨ limit > 100) ∧
    (limit < 1 →
      (execute_infinite_scroll_query collection name after_id limit sort_by order asf).1 =
        Except.error "limit must be >= 1") := by
  have hlow : limit < 1 →
      (execute_infinite_scroll_query collection name after_id limit sort_by order asf).1 =
        Except.error "limit must be >= 1" := by
    intro h
    unfold execute_infinite_scroll_query
    rw [if_pos h]
  refine ⟨⟨?_, ?_⟩, hlow⟩
  · rintro ⟨e, he⟩
    by_contra hc
    push_neg at hc
    obtain ⟨p, hp⟩ := execute_valid_ok collection name after_id limit sort_by order asf
      (by omega) (by omega) h3 h4 h5
    exact Except.noConfusion (hp.symm.trans he)
  · intro hlim
    rcases hlim with h | h
    · exact ⟨_, hlow h⟩
    · refine ⟨"limit must be <= 100", ?_⟩
      unfold execute_infinite_scroll_query
      rw [if_neg (by omega), if_pos h]

theorem infinite_scroll_limit_bounds_witness :
    ((∃ e, (execute_infinite_scroll_query sampleStore none none 0 "name" "asc" none).1 =
        Except.error e) ↔ (0 : Int) < 1 ∨ (0 : Int) > 100) ∧
    ((0 : Int) < 1 →
      (execute_infinite_scroll_query sampleStore none none 0 "name" "asc" none).1 =
        Except.error "limit must be >= 1") :=
  infinite_scroll_limit_bounds sampleStore none none 0 "name" "asc" none
    (by decide) (Or.inl rfl) (fun a h => nomatch h)

/-- C7: any invalid parameter makes the call fail with Bad Request before
the store is queried — the query log of a failing call is empty. -/
theorem infinite_scroll_validation_before_query (collection : Store)
    (name after_id : Option String) (limit : Int) (sort_by order : String)
    (asf : Option (List String))
    (h : limit < 1 ∨ 100 < limit ∨ sort_by ∉ resolveAllowedSortFields asf ∨
      ¬ (order = "asc" ∨ order = "desc") ∨
      ∃ a, after_id = some a ∧ isValidObjectIdString a = false) :
    (∃ e, (execute_infinite_scroll_query collection name after_id limit sort_by order asf).1 =
      Except.error e) ∧
    (execute_infinite_scroll_query collection name after_id limit sort_by order asf).2 = [] := by
  have herr : ∃ e,
      (execute_infinite_scroll_query collection name after_id limit sort_by order asf).1 =
        Except.error e := by
    cases hr : (execute_infinite_scroll_query collection name after_id limit sort_by order asf).1
      with
    | error e => exact ⟨e, rfl⟩
    | ok p =>
      obtain ⟨h1, h2, h3, h4, h5, -⟩ :=
        execute_ok_inversion collection name after_id limit sort_by order asf p hr
      rcases h with h | h | h | h | ⟨a, ha, hv⟩
      · omega
      · omega
      · exact absurd h3 h
      · exact absurd h4 h
      · rw [h5 a ha] at hv
        exact Bool.noConfusion hv
  obtain ⟨e, he⟩ := herr
  exact ⟨⟨e, he⟩, execute_error_log_nil collection name after_id limit sort_by order asf e he⟩

theorem infinite_scroll_validation_before_query_witness :
    (∃ e, (execute_infinite_scroll_query sampleStore none none 0 "name" "asc" none).1 =
      Except.error e) ∧
    (execute_infinite_scroll_query sampleStore none none 0 "name" "asc" none).2 = [] :=
  infinite_scroll_validation_before_query sampleStore none none 0 "name" "asc" none
    (Or.inl (by decide))

/-- C8: a supplied `after_id` that does not parse as an ObjectId makes the
call fail with Bad Request, and a valid `after_id` raises no Bad Request —
with the other parameters valid the call succeeds. -/
theorem infinite_scroll_after_id_validation (collection : Store)
    (name after_id2 : Option String) (limit : Int) (sort_by order : String)
    (asf : Option (List String))
    (h1 : 1 ≤ limit) (h2 : limit ≤ 100)
    (h3 : sort_by ∈ resolveAllowedSortFields asf)
    (h4 : order = "asc" ∨ order = "desc") :
    (∀ a, after_id2 = some a → isValidObjectIdString a = false →
      (execute_infinite_scroll_query collection name after_id2 limit sort_by order asf).1 =
        Except.error "after_id must be a valid MongoDB ObjectId") ∧
    ((∀ a, after_id2 = some a → isValidObjectIdString a = true) →
      ∃ p, (execute_infinite_scroll_query collection name after_id2 limit sort_by order asf).1 =
        Except.ok p) := by
  constructor
  · intro a ha hv
    subst ha
    unfold execute_infinite_scroll_query
    rw [if_neg (by omega), if_neg (by omega), if_neg (by simpa using h3),
      if_neg (by rcases h4 with h | h <;> simp [h]), if_pos (by simp [hv])]
  · intro h5
    exact execute_valid_ok collection name after_id2 limit sort_by order asf h1 h2 h3 h4 h5

theorem infinite_scroll_after_id_validation_witness :
    (∀ a, (some "not-an-object-id" : Option String) = some a →
      isValidObjectIdString a = false →
      (execute_infinite_scroll_query sampleStore none (some "not-an-object-id") 10 "name" "asc"
          none).1 =
        Except.error "after_id must be a valid MongoDB ObjectId") ∧
    ((∀ a, (some "not-an-object-id" : Option String) = some a →
        isValidObjectIdString a = true) →
      ∃ p, (execute_infinite_scroll_query sampleStore none (some "not-an-object-id") 10 "name"
          "asc" none).1 = Except.ok p) :=
  infinite_scroll_after_id_validation sampleStore none (some "not-an-object-id") 10 "name" "asc"
    none (by decide) (by decide) (by decide) (Or.inl rfl)
